import Mathlib

/-!
Verification of `scripts/update_posterior.py`, a nightly Bayesian posterior
updater for a trading bot.  The script is embedded shallowly:

* JSON values produced by `json.loads` become an inductive `Json` type
  (numbers modelled as exact rationals, so Python float arithmetic is
  modelled by exact rational arithmetic).
* The filesystem is passed explicitly: the posterior file is
  `Option (Option Json)` (`none` = file missing, `some none` = contents do
  not parse as JSON, `some (some j)` = contents parse to `j`); the journal
  is `Option (List (Option Json))` (`none` = file missing, each line is the
  result of `json.loads`, `none` when the line is not valid JSON).
* Python exceptions become an `Except PyErr` result; the bare `except:`
  handlers of the script become total branches of the embedded functions.
* `datetime.strptime(s, "%Y-%m-%d")` and `datetime.fromisoformat` are
  embedded following CPython's (pre-3.11) implementations, at the level of
  detail the script exercises: `strptime` matches the ordered regex
  alternation `(\d\d\d\d)-(1[0-2]|0[1-9]|[1-9])-(3[01]|[12]\d|0[1-9]|[1-9])`
  against the whole string and then validates the calendar date;
  `fromisoformat` requires a zero-padded `YYYY-MM-DD` prefix, an arbitrary
  one-character separator, and a `HH[:MM[:SS[.fff[fff]]]][±HH:MM[:SS]]`
  time part.
* Printing is modelled by a list of output events (`OutLine`), one per
  `print` call, carrying the data being formatted.
-/

/-- A JSON value as produced by Python's `json.loads`.  Numbers are modelled
as exact rationals. -/
inductive Json where
  | null
  | bool (b : Bool)
  | num (q : ℚ)
  | str (s : String)
  | arr (elems : List Json)
  | obj (fields : List (String × Json))

/-- Python truthiness of a `json.loads` value (`if entry.get("won"):`). -/
def Json.truthy : Json → Bool
  | .null => false
  | .bool b => b
  | .num q => q != 0
  | .str s => s != ""
  | .arr elems => !elems.isEmpty
  | .obj fields => !fields.isEmpty

/-- `dict.get k` on a parsed JSON object: first binding of the key, if any
(objects coming from `json.loads` have distinct keys). -/
def objGet (fields : List (String × Json)) (k : String) : Option Json :=
  match fields with
  | [] => none
  | kv :: rest => if kv.1 == k then some kv.2 else objGet rest k

/-- `dict[k] = v`: replace the first binding of `k`, or append it. -/
def setKv (fields : List (String × Json)) (k : String) (v : Json) :
    List (String × Json) :=
  match fields with
  | [] => [(k, v)]
  | kv :: rest => if kv.1 == k then (k, v) :: rest else kv :: setKv rest k v

/-- `dict[k] = v` lifted to `Json` (only ever applied to objects). -/
def jsonSet (j : Json) (k : String) (v : Json) : Json :=
  match j with
  | .obj fields => .obj (setKv fields k v)
  | j => j

deriving instance DecidableEq for Except

/-- The Python exceptions the script can raise uncaught. -/
inductive PyErr where
  | valueError
  | keyError
  | typeError
  | attributeError
deriving DecidableEq

/-- A calendar date, as carried by a Python `datetime`. -/
structure Date where
  year : Nat
  month : Nat
  day : Nat
deriving DecidableEq

def isLeap (y : Nat) : Bool :=
  (y % 4 == 0 && y % 100 != 0) || (y % 400 == 0)

def daysInMonth (y m : Nat) : Nat :=
  if m = 2 then (if isLeap y then 29 else 28)
  else if m = 4 ∨ m = 6 ∨ m = 9 ∨ m = 11 then 30
  else 31

/-- `datetime(year, month, day)` constructor validation. -/
def mkDatetime (y mo d : Nat) : Option Date :=
  if 1 ≤ y ∧ y ≤ 9999 ∧ 1 ≤ mo ∧ mo ≤ 12 ∧ 1 ≤ d ∧ d ≤ daysInMonth y mo then
    some ⟨y, mo, d⟩
  else none

def digit? (c : Char) : Option Nat :=
  if c.isDigit then some (c.toNat - '0'.toNat) else none

/-- Two mandatory decimal digits. -/
def digits2 : List Char → Option (Nat × List Char)
  | a :: b :: rest => do
    let x ← digit? a
    let y ← digit? b
    pure (10 * x + y, rest)
  | _ => none

/-- First alternative of an ordered list of parses that succeeds. -/
def firstSome {α β : Type} (f : α → Option β) : List α → Option β
  | [] => none
  | a :: rest => (f a).orElse (fun _ => firstSome f rest)

/-- The ordered regex alternatives `1[0-2]|0[1-9]|[1-9]` CPython's
`_strptime` uses for `%m`, as candidate `(value, remaining input)` pairs. -/
def monthAlts : List Char → List (Nat × List Char)
  | c1 :: c2 :: rest =>
    (if c1 = '1' ∧ '0' ≤ c2 ∧ c2 ≤ '2' then [(10 + (c2.toNat - 48), rest)] else []) ++
    (if c1 = '0' ∧ '1' ≤ c2 ∧ c2 ≤ '9' then [(c2.toNat - 48, rest)] else []) ++
    (if '1' ≤ c1 ∧ c1 ≤ '9' then [(c1.toNat - 48, c2 :: rest)] else [])
  | [c1] => if '1' ≤ c1 ∧ c1 ≤ '9' then [(c1.toNat - 48, [])] else []
  | [] => []

/-- The ordered regex alternatives `3[01]|[12]\d|0[1-9]|[1-9]` CPython's
`_strptime` uses for `%d`. -/
def dayAlts : List Char → List (Nat × List Char)
  | c1 :: c2 :: rest =>
    (if c1 = '3' ∧ (c2 = '0' ∨ c2 = '1') then [(30 + (c2.toNat - 48), rest)] else []) ++
    (if (c1 = '1' ∨ c1 = '2') ∧ c2.isDigit then
      [(10 * (c1.toNat - 48) + (c2.toNat - 48), rest)] else []) ++
    (if c1 = '0' ∧ '1' ≤ c2 ∧ c2 ≤ '9' then [(c2.toNat - 48, rest)] else []) ++
    (if '1' ≤ c1 ∧ c1 ≤ '9' then [(c1.toNat - 48, c2 :: rest)] else [])
  | [c1] => if '1' ≤ c1 ∧ c1 ≤ '9' then [(c1.toNat - 48, [])] else []
  | [] => []

/-- `datetime.strptime(s, "%Y-%m-%d")`, returning `none` where CPython
raises `ValueError`.  `%Y` is exactly four digits; `%m`/`%d` accept
unpadded single digits (CPython's regex alternations above, with
backtracking); the whole string must be consumed, and the matched numbers
must form a real calendar date. -/
def strptime_Ymd (s : String) : Option Date :=
  match s.toList with
  | y1 :: y2 :: y3 :: y4 :: '-' :: rest =>
    match digit? y1, digit? y2, digit? y3, digit? y4 with
    | some a, some b, some c, some d =>
      let y := 1000 * a + 100 * b + 10 * c + d
      firstSome (fun mc =>
        match mc.2 with
        | '-' :: r2 =>
          firstSome (fun dc =>
            if dc.2.isEmpty then mkDatetime y mc.1 dc.1 else none) (dayAlts r2)
        | _ => none) (monthAlts rest)
    | _, _, _, _ => none
  | _ => none

/-- `HH[:MM[:SS]]` with mandatory two-digit components and `:` separators
(CPython's `_parse_hh_mm_ss_ff` up to the fraction). -/
def parseTimeComps (cs : List Char) : Option (Nat × Nat × Nat × List Char) := do
  let (h, r1) ← digits2 cs
  match r1 with
  | [] => pure (h, 0, 0, ([] : List Char))
  | ':' :: r2 => do
    let (m, r3) ← digits2 r2
    match r3 with
    | [] => pure (h, m, 0, ([] : List Char))
    | ':' :: r4 => do
      let (s, r5) ← digits2 r4
      pure (h, m, s, r5)
    | _ => none
  | _ => none

/-- An optional fractional-seconds suffix: nothing, or `.` followed by
exactly three or six digits. -/
def fracOk : List Char → Bool
  | [] => true
  | '.' :: fs => (fs.length = 3 ∨ fs.length = 6) && fs.all Char.isDigit
  | _ => false

/-- `HH[:MM[:SS[.fff[fff]]]]` consuming the whole input; the fractional
part is dropped (the script only uses the calendar date). -/
def parseHMSF (cs : List Char) : Option (Nat × Nat × Nat) := do
  let (h, m, s, rest) ← parseTimeComps cs
  if fracOk rest then pure (h, m, s) else none

/-- Split a time string at the first `-`, else at the first `+` (CPython's
timezone split in `_parse_isoformat_time`); returns the parts before and
after the sign. -/
def splitAtChar (c : Char) : List Char → Option (List Char × List Char)
  | [] => none
  | x :: xs =>
    if x = c then some ([], xs)
    else (splitAtChar c xs).map (fun p => (x :: p.1, p.2))

def splitTz (cs : List Char) : List Char × Option (List Char) :=
  match splitAtChar '-' cs with
  | some (t, z) => (t, some z)
  | none =>
    match splitAtChar '+' cs with
    | some (t, z) => (t, some z)
    | none => (cs, none)

/-- Validity of the time-of-day part of an ISO string (everything after the
one-character separator), per CPython `_parse_isoformat_time`: a
`HH[:MM[:SS[.fff[fff]]]]` clock reading plus an optional `±HH:MM[:SS]`
offset whose textual length is 5, 8 or 15 and whose magnitude is below one
day. -/
def validTime (cs : List Char) : Bool :=
  match splitTz cs with
  | (timecs, tz?) =>
    match parseHMSF timecs with
    | some (h, m, s) =>
      h ≤ 23 && m ≤ 59 && s ≤ 59 &&
      (match tz? with
       | none => true
       | some tz =>
         (tz.length = 5 || tz.length = 8 || tz.length = 15) &&
         (match parseHMSF tz with
          | some (th, tm, ts) => th * 3600 + tm * 60 + ts < 86400
          | none => false))
    | none => false

/-- `datetime.fromisoformat(s)` truncated to its calendar date, returning
`none` where CPython raises.  The date part must be zero-padded
`YYYY-MM-DD`; any single character may separate it from the optional time
part. -/
def fromisoformatDate (s : String) : Option Date :=
  match s.toList with
  | y1 :: y2 :: y3 :: y4 :: '-' :: m1 :: m2 :: '-' :: d1 :: d2 :: rest => do
    let a ← digit? y1
    let b ← digit? y2
    let c ← digit? y3
    let d ← digit? y4
    let mh ← digit? m1
    let ml ← digit? m2
    let dh ← digit? d1
    let dl ← digit? d2
    let date ← mkDatetime (1000 * a + 100 * b + 10 * c + d) (10 * mh + ml) (10 * dh + dl)
    match rest with
    | [] => pure date
    | _ :: timecs => if validTime timecs then pure date else none
  | _ => none

/-- Zero-pad to two digits (`strftime` `%m`, `%d`). -/
def pad2 (n : Nat) : String :=
  if n < 10 then "0" ++ toString n else toString n

/-- Zero-pad to four digits (`strftime` `%Y`). -/
def pad4 (n : Nat) : String :=
  if n < 10 then "000" ++ toString n
  else if n < 100 then "00" ++ toString n
  else if n < 1000 then "0" ++ toString n
  else toString n

/-- `ts.strftime("%Y-%m-%d")`. -/
def formatDate (d : Date) : String :=
  pad4 d.year ++ "-" ++ pad2 d.month ++ "-" ++ pad2 d.day

example : strptime_Ymd "2024-01-01" = some ⟨2024, 1, 1⟩ := by decide
example : strptime_Ymd "2024-1-1" = some ⟨2024, 1, 1⟩ := by decide
example : strptime_Ymd "Jan 1" = none := by decide
example : strptime_Ymd "2023-11-31" = none := by decide
example : fromisoformatDate "2024-01-01T10:00:00+00:00" = some ⟨2024, 1, 1⟩ := by decide
example : fromisoformatDate "2024-1-1" = none := by decide
example : fromisoformatDate "2024-01-01Tgarbage" = none := by decide
example : formatDate ⟨2024, 1, 1⟩ = "2024-01-01" := by decide

/-- `entry.get("type") == "settlement"` (Python's `!=` comparison against a
string is only true-negated for an equal string value). -/
def isSettlement (fields : List (String × Json)) : Bool :=
  match objGet fields "type" with
  | some (.str t) => t == "settlement"
  | _ => false

/-- `s.replace("Z", "+00:00")`: for a one-character pattern Python replaces
every occurrence of that character. -/
def replaceZChars : List Char → List Char
  | [] => []
  | c :: cs =>
    if c = 'Z' then '+' :: '0' :: '0' :: ':' :: '0' :: '0' :: replaceZChars cs
    else c :: replaceZChars cs

def replaceZ (s : String) : String := ⟨replaceZChars s.toList⟩

/-- The `try: ts = datetime.fromisoformat(entry["time"].replace("Z", "+00:00"))`
block, truncated to the calendar date: `none` when the key is missing, the
value is not a string, or the string does not parse (all swallowed by the
bare `except:`). -/
def entryDate (fields : List (String × Json)) : Option Date :=
  match objGet fields "time" with
  | some (.str s) => fromisoformatDate (replaceZ s)
  | _ => none

/-- `entry.get("won")` truthiness (`dict.get` defaults to `None`). -/
def wonTruthy (fields : List (String × Json)) : Bool :=
  ((objGet fields "won").getD .null).truthy

/-- One iteration of the journal loop on one `json.loads` result:
the contribution of the line to `(wins, losses)`, or the uncaught
`AttributeError` raised by `entry.get` when the line parses to a
non-object. -/
def lineDelta (date_str : String) : Option Json → Except PyErr (Nat × Nat)
  | none => .ok (0, 0)
  | some (.obj fields) =>
    if isSettlement fields then
      match entryDate fields with
      | none => .ok (0, 0)
      | some d =>
        if formatDate d == date_str then
          if wonTruthy fields then .ok (1, 0) else .ok (0, 1)
        else .ok (0, 0)
    else .ok (0, 0)
  | some _ => .error .attributeError

/-- The journal loop of `count_today_trades`, threading the two counters. -/
def countLoop (date_str : String) : Nat × Nat → List (Option Json) →
    Except PyErr (Nat × Nat)
  | acc, [] => .ok acc
  | acc, l :: rest =>
    match lineDelta date_str l with
    | .error e => .error e
    | .ok (w, lo) => countLoop date_str (acc.1 + w, acc.2 + lo) rest

/-- Output events, one per `print` call, carrying the printed data. -/
inductive OutLine where
  | currentPosterior (alpha beta : ℚ)
  | meanLine (m : ℚ)
  | medianLine (m : ℚ)
  | blank
  | journalNotFound
  | noSettlements (dateLabel : String)
  | todaysTrades (wins losses : Nat)
  | updatedPosterior (alpha beta : ℚ)
  | savedTo
  | summary (alpha beta : ℚ) (wins losses : Nat) (newAlpha newBeta : ℚ)
deriving DecidableEq

/-- `count_today_trades(date_str)`.  `today` is the ambient
`datetime.now().strftime("%Y-%m-%d")`; the journal file is passed
explicitly (`none` = missing).  Returns the counted pair together with the
lines printed, or the exception the call raises (`ValueError` from
`strptime` on a bad target date, `AttributeError` from a line parsing to a
non-object). -/
def count_today_trades (today : String) (journal : Option (List (Option Json)))
    (date_str : Option String) : Except PyErr ((Nat × Nat) × List OutLine) :=
  let ds := date_str.getD today
  match strptime_Ymd ds with
  | none => .error .valueError
  | some _ =>
    match journal with
    | none => .ok ((0, 0), [.journalNotFound])
    | some lines =>
      match countLoop ds (0, 0) lines with
      | .error e => .error e
      | .ok wl => .ok (wl, [])

/-- The default prior `{"alpha": 83, "beta": 3}`. -/
def defaultPosterior : Json := .obj [("alpha", .num 83), ("beta", .num 3)]

/-- `load_posterior()`: the posterior file's state is passed explicitly
(`none` = missing file, `some none` = contents fail `json.load`,
`some (some j)` = contents parse to `j`).  Total: the bare `except:`
swallows every parse error. -/
def load_posterior (file : Option (Option Json)) : Json :=
  match file with
  | none => defaultPosterior
  | some none => defaultPosterior
  | some (some j) => j

/-- Whether a JSON value is a well-formed `{alpha, beta}` record (an object
whose `alpha` and `beta` are numbers) — the spec's notion of a "valid
record", used to compare against what `load_posterior` actually returns. -/
def isPosteriorRecord : Json → Bool
  | .obj fields =>
    (match objGet fields "alpha" with | some (.num _) => true | _ => false) &&
    (match objGet fields "beta" with | some (.num _) => true | _ => false)
  | _ => false

/-- `posterior["alpha"]` / `posterior["beta"]`: Python `__getitem__` with a
string key — `KeyError` on a missing key, `TypeError` on a non-object. -/
def pyGetItem : Json → String → Except PyErr Json
  | .obj fields, k =>
    match objGet fields k with
    | some v => .ok v
    | none => .error .keyError
  | _, _ => .error .typeError

/-- Coercion of a JSON value to a Python number as used in arithmetic
(`bool` is an `int` subtype in Python); any other value makes the script's
arithmetic raise `TypeError`. -/
def pyNum : Json → Except PyErr ℚ
  | .num q => .ok q
  | .bool b => .ok (if b then 1 else 0)
  | _ => .error .typeError

/-- `alpha, beta = posterior["alpha"], posterior["beta"]` followed by their
use as numbers in `compute_posterior_stats`. -/
def posteriorNums (p : Json) : Except PyErr (ℚ × ℚ) :=
  match pyGetItem p "alpha" with
  | .error e => .error e
  | .ok a =>
    match pyGetItem p "beta" with
    | .error e => .error e
    | .ok b =>
      match pyNum a with
      | .error e => .error e
      | .ok av =>
        match pyNum b with
        | .error e => .error e
        | .ok bv => .ok (av, bv)

/-- The posterior mean and median of `compute_posterior_stats`. -/
structure Stats where
  mean : ℚ
  median : ℚ
deriving DecidableEq

/-- `compute_posterior_stats(alpha, beta)`: mean with a guard on a
non-positive denominator, and the closed-form Beta median approximation
guarded by `alpha + beta > 2`. -/
def compute_posterior_stats (alpha beta : ℚ) : Stats :=
  let mean := if alpha + beta > 0 then alpha / (alpha + beta) else 1/2
  let median := if alpha + beta > 2 then (alpha - 1/3) / (alpha + beta - 2/3) else mean
  { mean := mean, median := median }

/-- `sys.argv` handling of `main`: the date string is taken from `argv[2]`
exactly when `len(sys.argv) > 2 and sys.argv[1] == "--date"` (the program
name is `argv[0]`). -/
def argDate : List String → Option String
  | _ :: a1 :: a2 :: _ => if a1 == "--date" then some a2 else none
  | _ => none

/-- `date_str or 'today'` in the no-settlements message. -/
def pyOrToday : Option String → String
  | none => "today"
  | some s => if s == "" then "today" else s

/-- The observable result of a successful run: the lines printed and the
JSON written to the posterior file (`none` = the file was not touched). -/
structure RunResult where
  output : List OutLine
  saved : Option Json

/-- `main()`.  `today` is the ambient current local date already formatted
`%Y-%m-%d`; `argv` is `sys.argv`; `pf` and `journal` are the states of the
posterior and journal files.  (Namespaced: a bare `main` is reserved by
Lean for program entry points.) -/
def Script.main (today : String) (argv : List String) (pf : Option (Option Json))
    (journal : Option (List (Option Json))) : Except PyErr RunResult :=
  let date_str := argDate argv
  let posterior := load_posterior pf
  match posteriorNums posterior with
  | .error e => .error e
  | .ok (alpha, beta) =>
    let stats := compute_posterior_stats alpha beta
    let out1 := [OutLine.currentPosterior alpha beta, OutLine.meanLine stats.mean,
                 OutLine.medianLine stats.median, OutLine.blank]
    match count_today_trades today journal date_str with
    | .error e => .error e
    | .ok ((wins, losses), outc) =>
      if wins = 0 ∧ losses = 0 then
        .ok ⟨out1 ++ outc ++ [OutLine.noSettlements (pyOrToday date_str)], none⟩
      else
        let new_alpha := alpha + (wins : ℚ)
        let new_beta := beta + (losses : ℚ)
        let new_stats := compute_posterior_stats new_alpha new_beta
        let newp := jsonSet (jsonSet posterior "alpha" (.num new_alpha)) "beta" (.num new_beta)
        .ok ⟨out1 ++ outc ++
              [OutLine.todaysTrades wins losses, OutLine.blank,
               OutLine.updatedPosterior new_alpha new_beta,
               OutLine.meanLine new_stats.mean, OutLine.medianLine new_stats.median,
               OutLine.blank, OutLine.savedTo,
               OutLine.summary alpha beta wins losses new_alpha new_beta],
             some newp⟩

/-- The spec's two example settlement entries, plus filtered-out variants. -/
def entryWin : Json :=
  .obj [("type", .str "settlement"), ("time", .str "2024-01-01T10:00:00Z"), ("won", .bool true)]

def entryLoss : Json :=
  .obj [("type", .str "settlement"), ("time", .str "2024-01-01T11:00:00Z"), ("won", .bool false)]

def entryOrder : Json :=
  .obj [("type", .str "order"), ("time", .str "2024-01-01T09:00:00Z"), ("won", .bool true)]

def entryOtherDay : Json :=
  .obj [("type", .str "settlement"), ("time", .str "2024-01-02T10:00:00Z"), ("won", .bool true)]

def sampleJournal : List (Option Json) :=
  [some entryWin, some entryLoss, some entryOrder, some entryOtherDay]

example : count_today_trades "t" (some sampleJournal) (some "2024-01-01") =
    .ok ((1, 1), []) := by decide
example : count_today_trades "t" (some sampleJournal) (some "2024-1-1") =
    .ok ((0, 0), []) := by decide
example : count_today_trades "t" (some sampleJournal) (some "Jan 1") =
    .error .valueError := by decide

/-- Whether a settlement entry's parsed timestamp falls on the target
date (the comparison `entry_date != date_str` of the loop). -/
def dateMatches (ds : String) (fields : List (String × Json)) : Bool :=
  match entryDate fields with
  | some d => formatDate d == ds
  | none => false

/-- Declarative form of the loop body: the line is counted as a win. -/
def countedWin (ds : String) : Option Json → Bool
  | some (.obj fields) => isSettlement fields && dateMatches ds fields && wonTruthy fields
  | _ => false

/-- Declarative form of the loop body: the line is counted as a loss. -/
def countedLoss (ds : String) : Option Json → Bool
  | some (.obj fields) => isSettlement fields && dateMatches ds fields && !wonTruthy fields
  | _ => false

/-- Lines on which the loop body raises `AttributeError`: valid JSON that is
not an object. -/
def isCrashLine : Option Json → Bool
  | none => false
  | some (.obj _) => false
  | some _ => true

theorem lineDelta_eq (ds : String) (l : Option Json) :
    lineDelta ds l =
      if isCrashLine l then .error .attributeError
      else .ok (if countedWin ds l then 1 else 0, if countedLoss ds l then 1 else 0) := by
  match l with
  | none => rfl
  | some .null | some (.bool _) | some (.num _) | some (.str _) | some (.arr _) => rfl
  | some (.obj fields) =>
    by_cases hs : isSettlement fields
    · cases hd : entryDate fields with
      | none => simp [lineDelta, countedWin, countedLoss, isCrashLine, dateMatches, hs, hd]
      | some d =>
        by_cases hm : formatDate d == ds
        · by_cases hw : wonTruthy fields <;>
            simp [lineDelta, countedWin, countedLoss, isCrashLine, dateMatches, hs, hd, hm, hw]
        · simp [lineDelta, countedWin, countedLoss, isCrashLine, dateMatches, hs, hd, hm]
    · simp [lineDelta, countedWin, countedLoss, isCrashLine, hs]

theorem countLoop_eq (ds : String) (acc : Nat × Nat) (lines : List (Option Json)) :
    countLoop ds acc lines =
      if lines.any isCrashLine then .error .attributeError
      else .ok (acc.1 + lines.countP (countedWin ds), acc.2 + lines.countP (countedLoss ds)) := by
  induction lines generalizing acc with
  | nil => simp [countLoop]
  | cons l rest ih =>
    rw [countLoop, lineDelta_eq]
    by_cases hc : isCrashLine l
    · simp [hc]
    · simp only [hc, if_false, Bool.false_eq_true, ite_false]
      rw [ih]
      by_cases hr : rest.any isCrashLine
      · simp [hr, hc]
      · simp only [hr, hc, List.any_cons, Bool.or_self, if_false, Bool.false_eq_true,
          ite_false, List.countP_cons, Bool.false_or]
        congr 1
        by_cases hw : countedWin ds l <;> by_cases hl : countedLoss ds l <;>
          simp [hw, hl] <;> omega

theorem objGet_setKv_same (fields : List (String × Json)) (k : String) (v : Json) :
    objGet (setKv fields k v) k = some v := by
  induction fields with
  | nil => simp [objGet, setKv]
  | cons kv rest ih =>
    by_cases h : kv.1 == k
    · simp [setKv, objGet, h]
    · simp [setKv, objGet, h, ih]

theorem objGet_setKv_other (fields : List (String × Json)) (k k' : String) (v : Json)
    (h : k ≠ k') : objGet (setKv fields k v) k' = objGet fields k' := by
  induction fields with
  | nil => simp [objGet, setKv, h]
  | cons kv rest ih =>
    by_cases hk : kv.1 == k
    · have : kv.1 = k := by simpa using hk
      simp [setKv, objGet, hk, h, this]
    · simp [setKv, objGet, hk, ih]

theorem posteriorNums_obj (p : Json) (a b : ℚ) (h : posteriorNums p = .ok (a, b)) :
    ∃ fields, p = .obj fields := by
  cases p <;> simp_all [posteriorNums, pyGetItem]

/-- C1 counterexample: the claim says `load_posterior` "always returns a
valid {alpha, beta} record", but a posterior file whose contents *do* parse
as JSON is returned as-is without validation: a file containing `5` makes
`load_posterior` return the number `5`, which is not an {alpha, beta}
record. -/
theorem load_posterior_not_always_record :
    load_posterior (some (some (Json.num 5))) = Json.num 5 ∧
    isPosteriorRecord (Json.num 5) = false :=
  ⟨rfl, rfl⟩

/-- C1 (amended): `load_posterior` never raises (it is total); on a missing
file or on contents that fail to parse as JSON it returns exactly
`{alpha: 83, beta: 3}` (which is a valid record); on contents that parse as
JSON it returns the parsed value unvalidated. -/
theorem load_posterior_default_on_missing_or_bad_json :
    load_posterior none = defaultPosterior ∧
    load_posterior (some none) = defaultPosterior ∧
    (∀ j : Json, load_posterior (some (some j)) = j) ∧
    isPosteriorRecord defaultPosterior = true :=
  ⟨rfl, rfl, fun _ => rfl, rfl⟩

/-- C6 counterexample: the claim reads "mean = alpha / (alpha + beta),
defaulting to 0.5 when the denominator is zero", but the code's guard is
`(alpha + beta) > 0`: at `(alpha, beta) = (1, -2)` the denominator is `-1`,
which is nonzero, yet the code returns `0.5` rather than
`1 / (1 + (-2)) = -1`. -/
theorem mean_defaults_on_negative_denominator :
    (compute_posterior_stats 1 (-2)).mean = 1/2 ∧
    (1 : ℚ) + (-2) ≠ 0 ∧
    (1 : ℚ) / (1 + (-2)) ≠ 1/2 := by
  refine ⟨?_, by norm_num, by norm_num⟩
  norm_num [compute_posterior_stats]

/-- C6 (amended): `compute_posterior_stats` returns
`mean = alpha / (alpha + beta)` when the denominator is positive, and
defaults to `0.5` when the denominator is zero *or negative*; in
particular `compute_posterior_stats 83 3` has mean `83/86 ≈ 0.9651`
(within `10⁻⁴`). -/
theorem compute_posterior_stats_mean_amended (alpha beta : ℚ) :
    (0 < alpha + beta →
      (compute_posterior_stats alpha beta).mean = alpha / (alpha + beta)) ∧
    (alpha + beta ≤ 0 → (compute_posterior_stats alpha beta).mean = 1/2) ∧
    |(compute_posterior_stats 83 3).mean - 9651/10000| < 1/10000 := by
  refine ⟨fun h => ?_, fun h => ?_, ?_⟩
  · simp [compute_posterior_stats, h]
  · simp [compute_posterior_stats, not_lt.mpr h]
  · norm_num [compute_posterior_stats, abs_lt]

/-- Witness for C6 (amended) at `(83, 3)`. -/
theorem compute_posterior_stats_mean_amended_witness :
    (0 : ℚ) < 83 + 3 ∧ (compute_posterior_stats 83 3).mean = 83 / (83 + 3) :=
  ⟨by norm_num, (compute_posterior_stats_mean_amended 83 3).1 (by norm_num)⟩

/-- C7: `compute_posterior_stats` returns the closed-form approximation
`median = (alpha - 1/3) / (alpha + beta - 2/3)` when `alpha + beta > 2`,
and otherwise returns the mean as the median. -/
theorem compute_posterior_stats_median (alpha beta : ℚ) :
    (2 < alpha + beta →
      (compute_posterior_stats alpha beta).median =
        (alpha - 1/3) / (alpha + beta - 2/3)) ∧
    (alpha + beta ≤ 2 →
      (compute_posterior_stats alpha beta).median =
        (compute_posterior_stats alpha beta).mean) := by
  refine ⟨fun h => ?_, fun h => ?_⟩
  · simp [compute_posterior_stats, h]
  · simp [compute_posterior_stats, not_lt.mpr h]

/-- Witness for C7: both guards exercised, at `(83, 3)` and `(1, 1)`. -/
theorem compute_posterior_stats_median_witness :
    ((2 : ℚ) < 83 + 3 ∧
      (compute_posterior_stats 83 3).median = (83 - 1/3) / (83 + 3 - 2/3)) ∧
    ((1 : ℚ) + 1 ≤ 2 ∧
      (compute_posterior_stats 1 1).median = (compute_posterior_stats 1 1).mean) :=
  ⟨⟨by norm_num, (compute_posterior_stats_median 83 3).1 (by norm_num)⟩,
   ⟨by norm_num, (compute_posterior_stats_median 1 1).2 (by norm_num)⟩⟩

/-- C4: on a journal whose parseable lines are all JSON objects,
`count_today_trades` counts exactly the lines that parse as JSON, have
`type == "settlement"`, and have a parseable time on the target date:
wins are the lines whose `won` is truthy and losses the rest. -/
theorem count_today_trades_characterization (today ds : String)
    (lines : List (Option Json))
    (hds : (strptime_Ymd ds).isSome = true)
    (hlines : lines.any isCrashLine = false) :
    count_today_trades today (some lines) (some ds) =
      .ok ((lines.countP (countedWin ds), lines.countP (countedLoss ds)), []) := by
  obtain ⟨d, hd⟩ := Option.isSome_iff_exists.mp hds
  simp only [count_today_trades, Option.getD_some]
  rw [hd, countLoop_eq]
  simp [hlines]

/-- Witness for C4: the spec's two settlement entries on `2024-01-01` (one
won, one lost) together with an entry of a different type and a settlement
on a different date; the count is exactly `(1, 1)`. -/
theorem count_today_trades_characterization_witness :
    (strptime_Ymd "2024-01-01").isSome = true ∧
    sampleJournal.any isCrashLine = false ∧
    count_today_trades "t" (some sampleJournal) (some "2024-01-01") =
      .ok ((sampleJournal.countP (countedWin "2024-01-01"),
            sampleJournal.countP (countedLoss "2024-01-01")), []) ∧
    sampleJournal.countP (countedWin "2024-01-01") = 1 ∧
    sampleJournal.countP (countedLoss "2024-01-01") = 1 :=
  ⟨by decide, by decide,
   count_today_trades_characterization "t" "2024-01-01" sampleJournal
     (by decide) (by decide),
   by decide, by decide⟩

/-- Journal lines the loop skips silently: lines that are not valid JSON,
and object lines whose `time` field is missing, is not a string, or does
not parse as an ISO-8601 timestamp. -/
def skippedLine : Option Json → Prop
  | none => True
  | some (.obj fields) => entryDate fields = none
  | some _ => False

theorem skippedLine_facts (ds : String) (bad : Option Json)
    (hbad : skippedLine bad) :
    isCrashLine bad = false ∧ countedWin ds bad = false ∧
      countedLoss ds bad = false := by
  match bad with
  | none => exact ⟨rfl, rfl, rfl⟩
  | some (.obj fields) =>
    have h : entryDate fields = none := hbad
    refine ⟨rfl, ?_, ?_⟩ <;> simp [countedWin, countedLoss, dateMatches, h]
  | some .null | some (.bool _) | some (.num _) | some (.str _) | some (.arr _) =>
    exact hbad.elim

/-- C5: a line that fails to parse as JSON, or whose time field fails to
parse, is skipped silently: removing it from the journal leaves the result
of `count_today_trades` (both the counted pair and whether an error is
raised) unchanged. -/
theorem count_skips_unparseable_lines (today : String) (ds : Option String)
    (pre post : List (Option Json)) (bad : Option Json)
    (hbad : skippedLine bad) :
    count_today_trades today (some (pre ++ bad :: post)) ds =
      count_today_trades today (some (pre ++ post)) ds := by
  obtain ⟨hcrash, hwin, hloss⟩ := skippedLine_facts (ds.getD today) bad hbad
  simp only [count_today_trades]
  cases hs : strptime_Ymd (ds.getD today) with
  | none => rfl
  | some d =>
    rw [countLoop_eq, countLoop_eq]
    simp [List.any_append, List.countP_append, hcrash, hwin, hloss]

/-- Witness for C5: a malformed line between the two settlement entries
changes nothing. -/
theorem count_skips_unparseable_lines_witness :
    skippedLine none ∧
    count_today_trades "t" (some ([some entryWin] ++ none :: [some entryLoss]))
        (some "2024-01-01") =
      count_today_trades "t" (some ([some entryWin] ++ [some entryLoss]))
        (some "2024-01-01") :=
  ⟨trivial,
   count_skips_unparseable_lines "t" (some "2024-01-01")
     [some entryWin] [some entryLoss] none trivial⟩

/-- C8: the journal scan is an order-independent aggregation: permuting the
journal's lines never changes the result of `count_today_trades`. -/
theorem count_today_trades_perm_invariant (today : String) (ds : Option String)
    (l1 l2 : List (Option Json)) (h : l1.Perm l2) :
    count_today_trades today (some l1) ds =
      count_today_trades today (some l2) ds := by
  simp only [count_today_trades]
  cases hs : strptime_Ymd (ds.getD today) with
  | none => rfl
  | some d =>
    have hany : l1.any isCrashLine = l2.any isCrashLine := by
      cases h1 : l1.any isCrashLine <;> cases h2 : l2.any isCrashLine <;> try rfl
      · obtain ⟨x, hx, hpx⟩ := List.any_eq_true.mp h2
        have := List.any_eq_true.mpr ⟨x, h.mem_iff.mpr hx, hpx⟩
        rw [h1] at this; cases this
      · obtain ⟨x, hx, hpx⟩ := List.any_eq_true.mp h1
        have := List.any_eq_true.mpr ⟨x, h.mem_iff.mp hx, hpx⟩
        rw [h2] at this; cases this
    rw [countLoop_eq, countLoop_eq, hany,
      h.countP_eq (countedWin (ds.getD today)),
      h.countP_eq (countedLoss (ds.getD today))]

/-- Witness for C8: swapping the two settlement entries leaves the count
unchanged. -/
theorem count_today_trades_perm_invariant_witness :
    ([some entryLoss, some entryWin] : List (Option Json)).Perm
      [some entryWin, some entryLoss] ∧
    count_today_trades "t" (some [some entryLoss, some entryWin])
        (some "2024-01-01") =
      count_today_trades "t" (some [some entryWin, some entryLoss])
        (some "2024-01-01") :=
  ⟨List.Perm.swap _ _ _,
   count_today_trades_perm_invariant "t" (some "2024-01-01") _ _
     (List.Perm.swap _ _ _)⟩

/-- C10 counterexample: the claim offers `"2024-1-1"` as a date string that
"does not match the %Y-%m-%d format" and so should raise `ValueError`; but
CPython's `strptime` accepts unpadded month/day digits, so
`count_today_trades` does not raise on it — it returns `(0, 0)` (no entry
matches, because entries' dates are compared zero-padded). -/
theorem strptime_accepts_unpadded_date :
    strptime_Ymd "2024-1-1" = some ⟨2024, 1, 1⟩ ∧
    count_today_trades "t" (some sampleJournal) (some "2024-1-1") =
      .ok ((0, 0), []) :=
  ⟨by decide, by decide⟩

/-- C10 (amended): for every `date_str` that `strptime` with format
`%Y-%m-%d` actually rejects (e.g. `"Jan 1"`; unpadded dates like
`"2024-1-1"` are accepted by `strptime` and simply match no entries),
`count_today_trades` raises an uncaught `ValueError` before reading the
journal: the error occurs whatever the journal's state, even a missing
file. -/
theorem count_raises_on_bad_date (today : String)
    (journal : Option (List (Option Json))) (ds : String)
    (h : strptime_Ymd ds = none) :
    count_today_trades today journal (some ds) = .error .valueError := by
  simp [count_today_trades, h]

/-- Witness for C10 (amended) at `"Jan 1"` with a missing journal file. -/
theorem count_raises_on_bad_date_witness :
    strptime_Ymd "Jan 1" = none ∧
    count_today_trades "t" none (some "Jan 1") = .error .valueError :=
  ⟨by decide, count_raises_on_bad_date "t" none "Jan 1" (by decide)⟩

/-- C2: whenever loading yields numeric `(alpha, beta)` and the journal
scan yields `(wins, losses)` with `wins + losses > 0`, one run of the
update flow persists a posterior whose `alpha` is exactly `alpha + wins`
and whose `beta` is exactly `beta + losses`. -/
theorem update_flow_adds_counts (today : String) (argv : List String)
    (pf : Option (Option Json)) (journal : Option (List (Option Json)))
    (alpha beta : ℚ) (wins losses : Nat) (outc : List OutLine)
    (hp : posteriorNums (load_posterior pf) = .ok (alpha, beta))
    (hc : count_today_trades today journal (argDate argv) = .ok ((wins, losses), outc))
    (hpos : 0 < wins + losses) :
    ∃ r, Script.main today argv pf journal = .ok r ∧
      ∃ fields, r.saved = some (.obj fields) ∧
        objGet fields "alpha" = some (.num (alpha + (wins : ℚ))) ∧
        objGet fields "beta" = some (.num (beta + (losses : ℚ))) := by
  obtain ⟨pfields, hpf⟩ := posteriorNums_obj _ _ _ hp
  simp only [Script.main, hp, hc]
  have hne : ¬(wins = 0 ∧ losses = 0) := by omega
  rw [if_neg hne]
  refine ⟨_, rfl, ?_⟩
  rw [hpf]
  simp only [jsonSet]
  refine ⟨_, rfl, ?_, ?_⟩
  · rw [objGet_setKv_other _ "beta" "alpha" _ (by decide), objGet_setKv_same]
  · rw [objGet_setKv_same]

/-- Witness for C2: from the default prior `Beta(83, 3)` and the sample
journal giving `wins = 1, losses = 1`, the saved record has exactly
`alpha = 84` and `beta = 4`. -/
theorem update_flow_adds_counts_witness :
    posteriorNums (load_posterior none) = .ok (83, 3) ∧
    count_today_trades "2024-01-01" (some sampleJournal) (argDate ["prog"]) =
      .ok ((1, 1), []) ∧
    (0 : Nat) < 1 + 1 ∧
    (∃ r, Script.main "2024-01-01" ["prog"] none (some sampleJournal) = .ok r ∧
      ∃ fields, r.saved = some (.obj fields) ∧
        objGet fields "alpha" = some (.num ((83 : ℚ) + ((1 : Nat) : ℚ))) ∧
        objGet fields "beta" = some (.num ((3 : ℚ) + ((1 : Nat) : ℚ)))) :=
  ⟨by decide, by decide, by decide,
   update_flow_adds_counts "2024-01-01" ["prog"] none (some sampleJournal)
     83 3 1 1 [] (by decide) (by decide) (by decide)⟩

/-- C3: when the journal scan yields `(0, 0)`, `main` prints the
no-settlements message as its final line and returns without writing:
the posterior file is left untouched. -/
theorem zero_day_no_write (today : String) (argv : List String)
    (pf : Option (Option Json)) (journal : Option (List (Option Json)))
    (alpha beta : ℚ) (outc : List OutLine)
    (hp : posteriorNums (load_posterior pf) = .ok (alpha, beta))
    (hc : count_today_trades today journal (argDate argv) = .ok ((0, 0), outc)) :
    ∃ r, Script.main today argv pf journal = .ok r ∧ r.saved = none ∧
      r.output =
        [OutLine.currentPosterior alpha beta,
         OutLine.meanLine (compute_posterior_stats alpha beta).mean,
         OutLine.medianLine (compute_posterior_stats alpha beta).median,
         OutLine.blank] ++ outc ++
        [OutLine.noSettlements (pyOrToday (argDate argv))] := by
  simp only [Script.main, hp, hc, and_self, if_true, ite_true, eq_self_iff_true]
  exact ⟨_, rfl, rfl, rfl⟩

/-- Witness for C3: a journal whose only settlement is on another date. -/
theorem zero_day_no_write_witness :
    posteriorNums (load_posterior none) = .ok (83, 3) ∧
    count_today_trades "2024-01-01" (some [some entryOtherDay]) (argDate ["prog"]) =
      .ok ((0, 0), []) ∧
    (∃ r, Script.main "2024-01-01" ["prog"] none (some [some entryOtherDay]) = .ok r ∧
      r.saved = none ∧
      r.output =
        [OutLine.currentPosterior 83 3,
         OutLine.meanLine (compute_posterior_stats 83 3).mean,
         OutLine.medianLine (compute_posterior_stats 83 3).median,
         OutLine.blank] ++ [] ++
        [OutLine.noSettlements (pyOrToday (argDate ["prog"]))]) :=
  ⟨by decide, by decide,
   zero_day_no_write "2024-01-01" ["prog"] none (some [some entryOtherDay])
     83 3 [] (by decide) (by decide)⟩

/-- C9 counterexample: the claim says `--date` supplied without a value
terminates the process with nonzero status; but `main`'s argument check
`len(sys.argv) > 2 and sys.argv[1] == "--date"` simply fails, the flag is
ignored, and the run proceeds with the current local date and completes
normally. -/
theorem cli_missing_date_value_not_fatal :
    Script.main "2024-01-01" ["prog", "--date"] none (some sampleJournal) =
      Script.main "2024-01-01" ["prog"] none (some sampleJournal) ∧
    (Script.main "2024-01-01" ["prog", "--date"] none
        (some sampleJournal)).toOption.isSome = true :=
  ⟨rfl, rfl⟩

/-- C9 (amended): an invocation with no date argument uses the current
local date; an invocation with `--date` but no value is not an error —
the flag is ignored and the run behaves exactly as if no date argument had
been given, again using the current local date. -/
theorem cli_missing_date_value_ignored (today prog : String)
    (pf : Option (Option Json)) (journal : Option (List (Option Json))) :
    argDate [prog, "--date"] = none ∧
    argDate [prog] = none ∧
    Script.main today [prog, "--date"] pf journal =
      Script.main today [prog] pf journal ∧
    count_today_trades today journal (argDate [prog, "--date"]) =
      count_today_trades today journal (some today) :=
  ⟨rfl, rfl, rfl, rfl⟩
